import Mathlib

/-!
Verification of the question-generation service (saraabbas-saal/question-generation).

Shallow embedding of the core layers:

* `Models`     — the pydantic data model and field validators of `models.py`.
* `Generators` — the four parse/fallback strategies of `question_generators.py`.
* `Service`    — the routing/padding layer of `question_service.py`.
* `LlmClient`  — the retry/backoff loop of `llm_client.py`.
* `PyStr`      — character-level helpers mirroring the Python string methods
                 (`str.strip`, `str.split`, `str.startswith`) used by the
                 labeled-line parsers.
* `SP`         — the labeled-line parser of `structure_prompt.py`.
* `MainApp`    — the labeled-line parser and fallback builder of `main.py`.

Confidence scores (Python floats) are embedded as `Rat`; the only values the
code manipulates are the exact constants 0.0 and 0.8 and values copied from
decoded JSON, so no floating-point rounding is involved in any claim.
-/

namespace Models

/-- QuestionType enum of models.py. -/
inductive QuestionType where
  | MULTICHOICE
  | MULTI_SELECT
  | TRUE_FALSE
  | TRUE_FALSE_JUSTIFICATION
deriving DecidableEq, Repr

/-- BloomLevel enum of models.py. -/
inductive BloomLevel where
  | REMEMBER
  | UNDERSTAND
  | APPLY
  | ANALYZE
  | EVALUATE
  | CREATE
deriving DecidableEq, Repr

/-- Language enum of models.py (`ENGLISH = "en"`, `ARABIC = "ar"`). -/
inductive Language where
  | ENGLISH
  | ARABIC
deriving DecidableEq, Repr

/-- QuestionRequest model of models.py.  Optional integer fields are `Option Nat`;
`none` is Python `None` (field absent). -/
structure QuestionRequest where
  teaching_point_ar : String
  teaching_point_en : String
  context : Option String
  question_type : QuestionType
  number_of_distractors : Option Nat
  number_of_correct_answers : Option Nat
  language : Language
  bloom_level : BloomLevel
deriving DecidableEq, Repr

/-- QuestionOption model of models.py. -/
structure QuestionOption where
  key : String
  value : String
deriving DecidableEq, Repr

/-- Question model of models.py.  `confidence_score : Optional[float]` is
embedded as `Option Rat`. -/
structure Question where
  question_number : Nat
  question : String
  options : List QuestionOption
  answer : List String
  model_answer : Option String
  confidence_score : Option Rat
deriving DecidableEq, Repr

/-- Validator `validate_distractors` of models.py, applied to the field's value
(`none` when the field is absent). -/
def validate_distractors (v : Option Nat) (question_type : QuestionType) :
    Except String (Option Nat) :=
  if (question_type = .MULTICHOICE ∨ question_type = .MULTI_SELECT) ∧ v = none then
    .error "number_of_distractors required"
  else if (question_type = .TRUE_FALSE ∨ question_type = .TRUE_FALSE_JUSTIFICATION) ∧ v ≠ none then
    .ok none
  else
    .ok v

/-- Validator `validate_correct_answers` of models.py, applied to the field's
value (`none` when the field is absent). -/
def validate_correct_answers (v : Option Nat) (question_type : QuestionType) :
    Except String (Option Nat) :=
  if question_type = .MULTI_SELECT ∧ v = none then
    .error "number_of_correct_answers required for MULTI_SELECT"
  else if question_type ≠ .MULTI_SELECT ∧ v ≠ none then
    .ok none
  else
    .ok v

/-- Construction of a QuestionRequest: the `Field(ge=..., le=...)` bounds of
models.py followed by the two `@validator` functions.  Pydantic aggregates all
field errors into one ValidationError; the embedding returns the first error in
field-declaration order, which is exact whenever at most one field is invalid. -/
def validateQuestionRequest (teaching_point_ar teaching_point_en : String)
    (context : Option String) (question_type : QuestionType)
    (number_of_distractors number_of_correct_answers : Option Nat)
    (language : Language) (bloom_level : BloomLevel) :
    Except String QuestionRequest :=
  if number_of_distractors.any (fun d => decide (d < 2) || decide (6 < d)) then
    .error "number_of_distractors out of range 2..6"
  else if number_of_correct_answers.any (fun c => decide (c < 1) || decide (4 < c)) then
    .error "number_of_correct_answers out of range 1..4"
  else do
    let nd ← validate_distractors number_of_distractors question_type
    let nca ← validate_correct_answers number_of_correct_answers question_type
    .ok ⟨teaching_point_ar, teaching_point_en, context, question_type, nd, nca,
         language, bloom_level⟩

end Models

namespace Generators

open Models

/-- Teaching-point selection `QuestionGenerator._get_teaching_point`. -/
def get_teaching_point (request : QuestionRequest) : String :=
  if request.language = Language.ENGLISH then request.teaching_point_en
  else request.teaching_point_ar

/-- Total option count computed by `MultipleChoiceGenerator.generate_prompt`
(`request.number_of_distractors + 1`).  Python raises TypeError when the field
is `None`; the embedding returns `none` there. -/
def mc_total_options (request : QuestionRequest) : Option Nat :=
  request.number_of_distractors.map (fun d => d + 1)

/-- Fallback questions built by `QuestionGenerator._create_fallback_questions`. -/
def create_fallback_questions (request : QuestionRequest) : List Question :=
  (List.range 3).map fun i =>
    { question_number := i + 1
      question := "[Generation Error] Question " ++ toString (i + 1) ++ " for: " ++
        get_teaching_point request
      options := [⟨"A", "Option A"⟩, ⟨"B", "Option B"⟩]
      answer := ["A"]
      model_answer := none
      confidence_score := some 0 }

/-- One element of the `questions` array of the decoded JSON reply, as read by
the `parse_response` methods via `q_data.get(...)`.  Each field is `none` when
the key is absent.  The `question_number` supplied by the model is carried so
that theorems can state that it is ignored. -/
structure RawQuestionData where
  question_number : Option Nat
  question : Option String
  options : Option (List QuestionOption)
  answer : Option (List String)
  model_answer : Option String
  confidence_score : Option Rat
deriving DecidableEq, Repr

/-- Decoded JSON reply body: `data.get("questions", [])`. -/
structure RawData where
  questions : Option (List RawQuestionData)
deriving DecidableEq, Repr

/-- Construction `Question(...)` inside the parse loops.  Pydantic enforces
`confidence_score` within `[0, 1]` (`Field(ge=0.0, le=1.0)`); an out-of-range
value raises, which the embedding reports as `none` (the exception is caught by
the surrounding `except`, which falls back). -/
def mkQuestion (question_number : Nat) (question : String) (options : List QuestionOption)
    (answer : List String) (model_answer : Option String) (confidence_score : Rat) :
    Option Question :=
  if 0 ≤ confidence_score ∧ confidence_score ≤ 1 then
    some ⟨question_number, question, options, answer, model_answer, some confidence_score⟩
  else none

/-- Loop `for i, q_data in enumerate(data.get("questions", [])[:3], 1)` of the
`parse_response` methods, applied to the (already truncated) item list starting
at index `i`.  A failing construction aborts the whole loop (`none`), matching
the exception propagating to the `except` handler. -/
def buildQuestions (mk : Nat → RawQuestionData → Option Question) :
    Nat → List RawQuestionData → Option (List Question)
  | _, [] => some []
  | i, q :: rest =>
    match mk i q with
    | none => none
    | some g => (buildQuestions mk (i + 1) rest).map (fun l => g :: l)

/-- Per-item construction of `MultipleChoiceGenerator.parse_response`. -/
def mc_mk (i : Nat) (q : RawQuestionData) : Option Question :=
  mkQuestion i (q.question.getD ("Question " ++ toString i)) (q.options.getD [])
    (q.answer.getD ["A"]) none (q.confidence_score.getD (4/5))

/-- Per-item construction of `MultiSelectGenerator.parse_response` (note the
`["A", "B"]` answer default). -/
def ms_mk (i : Nat) (q : RawQuestionData) : Option Question :=
  mkQuestion i (q.question.getD ("Question " ++ toString i)) (q.options.getD [])
    (q.answer.getD ["A", "B"]) none (q.confidence_score.getD (4/5))

/-- Per-item construction of `TrueFalseGenerator.parse_response`: options are
hard-coded to A) True / B) False, ignoring any options in the model output. -/
def tf_mk (i : Nat) (q : RawQuestionData) : Option Question :=
  mkQuestion i (q.question.getD ("Question " ++ toString i))
    [⟨"A", "True"⟩, ⟨"B", "False"⟩] (q.answer.getD ["A"]) none
    (q.confidence_score.getD (4/5))

/-- Per-item construction of `TrueFalseJustificationGenerator.parse_response`:
hard-coded True/False options plus the `model_answer` field. -/
def tfj_mk (i : Nat) (q : RawQuestionData) : Option Question :=
  mkQuestion i (q.question.getD ("Question " ++ toString i))
    [⟨"A", "True"⟩, ⟨"B", "False"⟩] (q.answer.getD ["A"])
    (some (q.model_answer.getD "Justification not provided"))
    (q.confidence_score.getD (4/5))

/-- Shared body of the four `parse_response` methods.  The regex extraction and
`json.loads` of the Python are represented by the `Option RawData` argument:
`none` when extraction/deserialization/shape validation raises (garbage text, a
non-object body, an `options`/`answer` value of the wrong type, ...).  Any
exception inside the loop likewise lands in the `except` handler, which returns
`_create_fallback_questions(request)`. -/
def parse_response_with (mk : Nat → RawQuestionData → Option Question) :
    Option RawData → QuestionRequest → List Question
  | none, request => create_fallback_questions request
  | some data, request =>
    (buildQuestions mk 1 ((data.questions.getD []).take 3)).getD
      (create_fallback_questions request)

/-- `MultipleChoiceGenerator.parse_response`. -/
def mc_parse_response (decoded : Option RawData) (request : QuestionRequest) : List Question :=
  parse_response_with mc_mk decoded request

/-- `MultiSelectGenerator.parse_response`. -/
def ms_parse_response (decoded : Option RawData) (request : QuestionRequest) : List Question :=
  parse_response_with ms_mk decoded request

/-- `TrueFalseGenerator.parse_response`. -/
def tf_parse_response (decoded : Option RawData) (request : QuestionRequest) : List Question :=
  parse_response_with tf_mk decoded request

/-- `TrueFalseJustificationGenerator.parse_response`. -/
def tfj_parse_response (decoded : Option RawData) (request : QuestionRequest) : List Question :=
  parse_response_with tfj_mk decoded request

/-- Valid-confidence predicate for the first three items of a decoded reply:
exactly the items whose `Question(...)` construction succeeds (pydantic range
check on `confidence_score`). -/
def confItemOk (q : RawQuestionData) : Bool :=
  match q.confidence_score with
  | some c => decide (0 ≤ c) && decide (c ≤ 1)
  | none => true

/-- All of the first three items of a decoded reply construct successfully. -/
def confOk (data : RawData) : Bool :=
  ((data.questions.getD []).take 3).all confItemOk

/-- Outcome of the single `llm_client.generate_response` call made by
`QuestionGenerator.generate_questions`: either an exception (after the client's
retries are exhausted) or a reply whose text decodes to `reply d`. -/
inductive ModelReply where
  | failure (msg : String)
  | reply (decoded : Option RawData)
deriving DecidableEq, Repr

/-- Method `QuestionGenerator.generate_questions`: the whole prompt/call/parse
body is wrapped in `try ... except Exception`, so an inference failure is
caught and replaced by `_create_fallback_questions(request)`. -/
def generate_questions (parse : Option RawData → QuestionRequest → List Question)
    (outcome : ModelReply) (request : QuestionRequest) : List Question :=
  match outcome with
  | .failure _ => create_fallback_questions request
  | .reply decoded => parse decoded request

end Generators

namespace Service

open Models Generators

/-- Response model `QuestionResponse` of models.py, with the
`generation_metadata` entries that are functions of the data
(`generation_time_seconds` is wall-clock time and is omitted). -/
structure QuestionResponse where
  questions : List Question
  teaching_point : String
  question_type : QuestionType
  language : Language
  bloom_level : BloomLevel
  generator_type : String
  average_confidence : Rat
deriving DecidableEq, Repr

/-- Strategy dispatch of `QuestionGenerationService.__init__`: every enum value
has a generator, so the `if not generator` branch is unreachable. -/
def parser_for : QuestionType → (Option RawData → QuestionRequest → List Question)
  | .MULTICHOICE => mc_parse_response
  | .MULTI_SELECT => ms_parse_response
  | .TRUE_FALSE => tf_parse_response
  | .TRUE_FALSE_JUSTIFICATION => tfj_parse_response

/-- Generator class name, used in `generation_metadata.generator_type`. -/
def generator_name : QuestionType → String
  | .MULTICHOICE => "MultipleChoiceGenerator"
  | .MULTI_SELECT => "MultiSelectGenerator"
  | .TRUE_FALSE => "TrueFalseGenerator"
  | .TRUE_FALSE_JUSTIFICATION => "TrueFalseJustificationGenerator"

/-- Method `QuestionGenerationService.generate_questions`: dispatch, generate,
pad to at least 3 with fallback questions, truncate to exactly 3, and assemble
the response.  The `while len(questions) < 3` loop extends by the 3-element
fallback list, so it runs at most once; the embedding writes that single
conditional extension. -/
def generate_questions (outcome : ModelReply) (request : QuestionRequest) :
    QuestionResponse :=
  let questions := Generators.generate_questions (parser_for request.question_type)
    outcome request
  let questions := if questions.length < 3 then
    questions ++ create_fallback_questions request else questions
  let questions := questions.take 3
  { questions := questions
    teaching_point := get_teaching_point request
    question_type := request.question_type
    language := request.language
    bloom_level := request.bloom_level
    generator_type := generator_name request.question_type
    average_confidence :=
      ((questions.map (fun q => q.confidence_score.getD 0)).sum) /
        (questions.length : Rat) }

end Service

namespace LlmClient

/-- Outcome of one attempt of the `for attempt in range(max_retries)` loop in
`LLMClient.generate_response`: a `requests` timeout, another transport error
(connection error or, via `raise_for_status`, a bad HTTP status), a body that
is not JSON or lacks a non-empty `choices` array (`ValueError` caught by the
generic `except Exception` arm), or a successful body with content. -/
inductive AttemptOutcome where
  | timeout
  | transportError (msg : String)
  | malformedBody
  | success (content : String)
deriving DecidableEq, Repr

/-- Observable behaviour of a `generate_response` call: the returned content or
raised message, the number of attempts made, and the cumulative `time.sleep`
duration in seconds. -/
structure RetryTrace where
  result : Except String String
  attempts : Nat
  totalSleep : Nat
deriving Repr

/-- `max_retries = 3` of `LLMClient.generate_response`. -/
def max_retries : Nat := 3

/-- The retry loop of `LLMClient.generate_response`, parameterized by the
outcome of each attempt.  All three `except` arms behave identically apart from
the raised message: on the last attempt they raise, otherwise they sleep
`2 ** attempt` seconds and retry.  `fuel` is the number of loop iterations left
(`max_retries - attempt`); the fuel-0 case is unreachable from
`generate_response`.  The generator calls with `return_json=False`, so the
success value is `content.strip()`. -/
def retryFrom (outcomes : Nat → AttemptOutcome) : Nat → Nat → Nat → RetryTrace
  | _, 0, sleepAcc => ⟨.error "loop exhausted", max_retries, sleepAcc⟩
  | attempt, fuel + 1, sleepAcc =>
    match outcomes attempt with
    | .success content => ⟨.ok content.trim, attempt + 1, sleepAcc⟩
    | .timeout =>
      if attempt = max_retries - 1 then
        ⟨.error "LLM request timed out after all retries", attempt + 1, sleepAcc⟩
      else retryFrom outcomes (attempt + 1) fuel (sleepAcc + 2 ^ attempt)
    | .transportError msg =>
      if attempt = max_retries - 1 then
        ⟨.error ("LLM request failed: " ++ msg), attempt + 1, sleepAcc⟩
      else retryFrom outcomes (attempt + 1) fuel (sleepAcc + 2 ^ attempt)
    | .malformedBody =>
      if attempt = max_retries - 1 then
        ⟨.error "LLM generation failed: Invalid response format from LLM", attempt + 1,
          sleepAcc⟩
      else retryFrom outcomes (attempt + 1) fuel (sleepAcc + 2 ^ attempt)

/-- `LLMClient.generate_response`, as a function of the per-attempt outcomes. -/
def generate_response (outcomes : Nat → AttemptOutcome) : RetryTrace :=
  retryFrom outcomes 0 max_retries 0

end LlmClient

namespace PyStr

/-- Python `str` whitespace characters recognised by `str.strip()`. -/
def isPySpace (c : Char) : Bool :=
  c = ' ' || c = '\t' || c = '\n' || c = '\r' || c = '\x0b' || c = '\x0c'

/-- Python `str.strip()` on a character list. -/
def strip (cs : List Char) : List Char :=
  ((cs.dropWhile isPySpace).reverse.dropWhile isPySpace).reverse

/-- Python `str.split(sep)` for a one-character separator: `splitOn sep cs`.
`"a:b:".split(":") == ["a", "b", ""]`. -/
def splitOn (sep : Char) : List Char → List (List Char) :=
  go []
where
  /-- Accumulating worker for `splitOn`; `acc` holds the current piece reversed. -/
  go : List Char → List Char → List (List Char)
    | acc, [] => [acc.reverse]
    | acc, c :: rest => if c = sep then acc.reverse :: go [] rest else go (c :: acc) rest

/-- Python `str.startswith(pat)` on character lists. -/
def startsWith : List Char → List Char → Bool
  | _, [] => true
  | [], _ :: _ => false
  | c :: cs, p :: ps => c = p && startsWith cs ps

/-- Python `sep.join(pieces)` for a one-character separator. -/
def joinWith (sep : Char) : List (List Char) → List Char
  | [] => []
  | [l] => l
  | l :: rest => l ++ sep :: joinWith sep rest

/-- Python `s.split(sep, 1)[1]` for a one-character separator, on a string that
contains `sep`: everything after the first occurrence. -/
def afterFirst (sep : Char) (cs : List Char) : List Char :=
  joinWith sep ((splitOn sep cs).drop 1)

end PyStr

namespace SP

open PyStr

/-- Question model of pydantic_classes.py (`options: List[dict]` holds
`{"key": ..., "value": ...}` dictionaries, embedded as `Models.QuestionOption`). -/
structure Question where
  question_number : Nat
  question : String
  options : List Models.QuestionOption
  answer : List String
  model_answer : Option String
deriving DecidableEq, Repr

/-- NameError raised by evaluating an undefined global name. -/
inductive PyError where
  | nameError (name : String)
deriving DecidableEq, Repr

/-- Block-splitting loop shared verbatim by `parse_generated_questions` in
structure_prompt.py and main.py: lines are stripped, a stripped line starting
with `"Question "` and containing a colon opens a new block, lines before the
first marker are dropped, and a block's lines are re-joined with newlines.
`cur` holds the current block's lines in reverse. -/
def collectBlocks : List (List Char) → List (List Char) → List (List Char)
  | [], cur => if cur.isEmpty then [] else [joinWith '\n' cur.reverse]
  | line :: rest, cur =>
    let l := strip line
    if startsWith l ("Question ".toList) && l.contains ':' then
      if cur.isEmpty then collectBlocks rest [l]
      else joinWith '\n' cur.reverse :: collectBlocks rest [l]
    else
      if cur.isEmpty then collectBlocks rest []
      else collectBlocks rest (l :: cur)

/-- Blocks of `generated_text.strip().split('\n')` as computed by the
`for line in lines` loop of `parse_generated_questions`. -/
def question_blocks (text : List Char) : List (List Char) :=
  collectBlocks (splitOn '\n' (strip text)) []

/-- Function `parse_single_question` of structure_prompt.py.  When no
`"Answer:"` line is present the Python sets `answer = "A"` (a plain `str`),
which fails pydantic validation for the `answer: List[str]` field of
`pydantic_classes.Question`; the resulting exception is caught by the
function's own `except`, which returns `None` — embedded as the `none` case. -/
def parse_single_question (block : List Char) (question_type : String)
    (question_number : Nat) : Option Question :=
  let lines := ((splitOn '\n' block).map strip).filter (fun l => !l.isEmpty)
  let question_text :=
    match lines.find? (fun l => startsWith l ("Question ".toList) && l.contains ':') with
    | some l => String.mk (strip (afterFirst ':' l))
    | none => ""
  let parsedOptions : List Models.QuestionOption := lines.filterMap (fun l =>
    if startsWith l ("A) ".toList) || startsWith l ("B) ".toList) ||
        startsWith l ("C) ".toList) || startsWith l ("D) ".toList) ||
        startsWith l ("E) ".toList) || startsWith l ("F) ".toList) then
      some ⟨String.mk (l.take 1), String.mk (strip (l.drop 2))⟩
    else none)
  let options :=
    if question_type = "TRUE_FALSE" ∨ question_type = "TRUE_FALSE_JUSTIFICATION" then
      [⟨"A", "True"⟩, ⟨"B", "False"⟩]
    else parsedOptions
  let answer := (lines.find? (fun l => startsWith l ("Answer:".toList))).map (fun l =>
    (splitOn ',' ((splitOn ':' l).getD 1 [])).map (fun a => String.mk (strip a)))
  let model_answer :=
    if question_type = "TRUE_FALSE_JUSTIFICATION" then
      (lines.find? (fun l => startsWith l ("Model Answer:".toList))).map
        (fun l => String.mk (strip (afterFirst ':' l)))
    else none
  answer.map (fun ans => ⟨question_number, question_text, options, ans, model_answer⟩)

/-- Function `parse_generated_questions` of structure_prompt.py.  The padding
loop `while len(questions) < 3` calls `create_fallback_question`, a name that
is neither defined in nor imported into structure_prompt.py, so reaching it
raises `NameError`; the surrounding `except` handler calls the same undefined
name and the `NameError` escapes the function.  The extra Python parameters
(teaching point and counts) are only consumed by that unreachable-successfully
fallback code and are omitted here. -/
def parse_generated_questions (generated_text : List Char) (question_type : String) :
    Except PyError (List Question) :=
  let blocks := question_blocks generated_text
  let questions := (blocks.take 3).enum.filterMap
    (fun p => parse_single_question p.2 question_type (p.1 + 1))
  if questions.length < 3 then .error (.nameError "create_fallback_question")
  else .ok (questions.take 3)

end SP

namespace MainApp

open PyStr

/-- Question model of main.py (options are plain strings, and single/multiple
correct answers live in separate optional fields). -/
structure Question where
  question_number : Nat
  question_text : String
  question_type : String
  options : List String
  correct_answer : Option String
  correct_answers : Option (List String)
  teaching_points_covered : String
  model_answer : Option String
deriving DecidableEq, Repr

/-- Python `x or d` for an optional integer: `None` and `0` are both falsy. -/
def orD (o : Option Nat) (d : Nat) : Nat :=
  match o with
  | some v => if v = 0 then d else v
  | none => d

/-- Python `chr(65 + i)` as a one-letter string. -/
def letter (i : Nat) : String :=
  String.mk [Char.ofNat (65 + i)]

/-- Function `create_fallback_question` of main.py. -/
def create_fallback_question (question_number : Nat) (question_type : String)
    (teaching_point : String) (number_of_distractors number_of_correct_answers : Option Nat) :
    Question :=
  if question_type = "Multiple Choice" then
    let total_options := orD number_of_distractors 3 + 1
    { question_number
      question_text := "Question " ++ toString question_number ++ " - parsing error occurred"
      question_type
      options := (List.range total_options).map (fun i => "Option " ++ letter i)
      correct_answer := some "A"
      correct_answers := none
      teaching_points_covered := "Related to: " ++ teaching_point
      model_answer := none }
  else if question_type = "Multi-Select" then
    let total_options := orD number_of_distractors 2 + orD number_of_correct_answers 2
    let correct_count := orD number_of_correct_answers 2
    { question_number
      question_text := "Question " ++ toString question_number ++ " - parsing error occurred"
      question_type
      options := (List.range total_options).map (fun i => "Option " ++ letter i)
      correct_answer := none
      correct_answers := some ((List.range correct_count).map letter)
      teaching_points_covered := "Related to: " ++ teaching_point
      model_answer := none }
  else
    { question_number
      question_text := "Question " ++ toString question_number ++ " - parsing error occurred"
      question_type
      options := ["True", "False"]
      correct_answer := some "A"
      correct_answers := none
      teaching_points_covered := "Related to: " ++ teaching_point
      model_answer :=
        if question_type = "True or False with Justification" then
          some "This question had parsing issues."
        else none }

/-- Function `parse_single_question` of main.py.  Its field loop has no
`break`, so the last matching line wins for each field; the option-line
prefixes here have no trailing space (`'A)'` ...).  No argument of the final
`Question(...)` construction can fail pydantic validation, so the function
always returns a question (never `None`). -/
def parse_single_question (block : List Char) (question_type : String)
    (question_number : Nat) (teaching_point : String) : Question :=
  let lines := ((splitOn '\n' block).map strip).filter (fun l => !l.isEmpty)
  let question_text :=
    match lines.find? (fun l => startsWith l ("Question ".toList) && l.contains ':') with
    | some l => String.mk (strip (afterFirst ':' l))
    | none => ""
  let parsedOptions : List String := lines.filterMap (fun l =>
    if startsWith l ("A)".toList) || startsWith l ("B)".toList) ||
        startsWith l ("C)".toList) || startsWith l ("D)".toList) ||
        startsWith l ("E)".toList) || startsWith l ("F)".toList) then
      some (String.mk (strip (l.drop 2)))
    else none)
  let options :=
    if question_type = "True or False" ∨ question_type = "True or False with Justification" then
      ["True", "False"]
    else parsedOptions
  let correct_answer := (lines.reverse.find?
      (fun l => startsWith l ("Correct Answer:".toList))).map
    (fun l => String.mk (strip (afterFirst ':' l)))
  let correct_answers :=
    match lines.reverse.find? (fun l => startsWith l ("Correct Answers:".toList)) with
    | some l => (splitOn ',' (afterFirst ':' l)).map (fun a => String.mk (strip a))
    | none => []
  let teaching_points_covered :=
    match (lines.reverse.find?
        (fun l => startsWith l ("Teaching Points Covered:".toList))).map
      (fun l => strip (afterFirst ':' l)) with
    | some v => if v.isEmpty then "Application of: " ++ teaching_point else String.mk v
    | none => "Application of: " ++ teaching_point
  let model_answer := (lines.reverse.find?
      (fun l => startsWith l ("Model Answer:".toList))).map
    (fun l => String.mk (strip (afterFirst ':' l)))
  { question_number
    question_text
    question_type
    options
    correct_answer := if question_type ≠ "Multi-Select" then correct_answer else none
    correct_answers := if question_type = "Multi-Select" then some correct_answers else none
    teaching_points_covered
    model_answer }

/-- Padding loop `while len(questions) < 3` of main.py's
`parse_generated_questions`: each iteration appends one fallback question
numbered `len(questions) + 1`.  Three iterations of fuel always suffice since
the parsed list is at most 3 long and each iteration adds one question. -/
def padLoop (question_type teaching_point : String)
    (number_of_distractors number_of_correct_answers : Option Nat) :
    Nat → List Question → List Question
  | 0, questions => questions
  | fuel + 1, questions =>
    if questions.length < 3 then
      padLoop question_type teaching_point number_of_distractors number_of_correct_answers
        fuel (questions ++ [create_fallback_question (questions.length + 1) question_type
          teaching_point number_of_distractors number_of_correct_answers])
    else questions

/-- Function `parse_generated_questions` of main.py.  `parse_single_question`
always returns a question, so `if question:` always appends and the `except`
branch is unreachable. -/
def parse_generated_questions (generated_text : List Char) (question_type : String)
    (teaching_point : String) (number_of_distractors number_of_correct_answers : Option Nat) :
    List Question :=
  let blocks := SP.question_blocks generated_text
  let questions := (blocks.take 3).enum.map
    (fun p => parse_single_question p.2 question_type (p.1 + 1) teaching_point)
  (padLoop question_type teaching_point number_of_distractors number_of_correct_answers
    3 questions).take 3

end MainApp

namespace Fixtures

/-- Concrete MULTI_SELECT request with `correct_answer_count = 3`. -/
def reqMS : Models.QuestionRequest :=
  ⟨"tp_ar", "tp_en", none, .MULTI_SELECT, some 3, some 3, .ENGLISH, .UNDERSTAND⟩

/-- Concrete TRUE_FALSE request. -/
def reqTF : Models.QuestionRequest :=
  ⟨"tp_ar", "tp_en", none, .TRUE_FALSE, none, none, .ENGLISH, .UNDERSTAND⟩

/-- Concrete MULTICHOICE request. -/
def reqMC : Models.QuestionRequest :=
  ⟨"tp_ar", "tp_en", none, .MULTICHOICE, some 3, none, .ENGLISH, .UNDERSTAND⟩

/-- Decoded reply whose single item carries model-supplied non-True/False
options, used to exercise the forced-options path. -/
def dataTF : Generators.RawData :=
  ⟨some [⟨some 5, some "Statement one", some [⟨"C", "Maybe"⟩, ⟨"D", "Never"⟩],
    some ["B"], none, some 1⟩]⟩

/-- Decoded reply whose single item has a one-element answer list. -/
def dataMS : Generators.RawData :=
  ⟨some [⟨none, some "Pick several",
    some [⟨"A", "x"⟩, ⟨"B", "y"⟩, ⟨"C", "z"⟩, ⟨"D", "w"⟩], some ["A"], none, some 1⟩]⟩

/-- Decoded reply with two items both carrying bogus model-supplied question
numbers. -/
def dataMC : Generators.RawData :=
  ⟨some [⟨some 7, some "First", some [⟨"A", "x"⟩, ⟨"B", "y"⟩], some ["B"], none, some 1⟩,
    ⟨some 4, some "Second", some [⟨"A", "u"⟩, ⟨"B", "v"⟩], some ["A"], none, none⟩]⟩

/-- Labeled-line model output with three well-formed blocks whose headers carry
bogus question numbers (7, 9, 1). -/
def spText : List Char :=
  ("Question 7: What is X?\nA) one\nB) two\nC) three\nD) four\nAnswer: B\n" ++
   "Question 9: Second?\nA) a\nB) b\nAnswer: A, C\n" ++
   "Question 1: Third?\nA) x\nB) y\nAnswer: B\n").toList

end Fixtures

section Lemmas

/-- Fallback lists produced by the generator base class always have 3 items. -/
theorem create_fallback_questions_length (request : Models.QuestionRequest) :
    (Generators.create_fallback_questions request).length = 3 := by
  simp [Generators.create_fallback_questions]

/-- Conditional 3-element extension followed by truncation always yields
exactly 3 items. -/
theorem pad_take_length {α} (qs fb : List α) (h : fb.length = 3) :
    ((if qs.length < 3 then qs ++ fb else qs).take 3).length = 3 := by
  split
  all_goals simp [List.length_take, h]
  all_goals omega

/-- Successful construction `Question(...)`, given an in-range confidence. -/
theorem mkQuestion_eq (n : Nat) (text : String) (opts : List Models.QuestionOption)
    (ans : List String) (ma : Option String) {c : Rat} (h0 : 0 ≤ c) (h1 : c ≤ 1) :
    Generators.mkQuestion n text opts ans ma c = some ⟨n, text, opts, ans, ma, some c⟩ :=
  if_pos ⟨h0, h1⟩

/-- Confidence value used by the parse loop is in range for a valid item. -/
theorem confItemOk_bounds {q : Generators.RawQuestionData}
    (h : Generators.confItemOk q = true) :
    0 ≤ q.confidence_score.getD (4/5) ∧ q.confidence_score.getD (4/5) ≤ 1 := by
  unfold Generators.confItemOk at h
  cases hc : q.confidence_score with
  | none => simp only [Option.getD_none]; constructor <;> norm_num
  | some c =>
    rw [hc] at h
    simp only [Option.getD_some]
    simpa using h

/-- Generic shape of a fully successful parse loop. -/
theorem buildQuestions_eq {mk : Nat → Generators.RawQuestionData → Option Models.Question}
    {f : Nat → Generators.RawQuestionData → Models.Question}
    (hmk : ∀ i q, Generators.confItemOk q = true → mk i q = some (f i q)) :
    ∀ (items : List Generators.RawQuestionData) (i : Nat),
      items.all Generators.confItemOk = true →
      Generators.buildQuestions mk i items =
        some ((List.enumFrom i items).map (fun p => f p.1 p.2)) := by
  intro items
  induction items with
  | nil => intro i _; rfl
  | cons q rest ih =>
    intro i hall
    simp only [List.all_cons, Bool.and_eq_true] at hall
    simp only [Generators.buildQuestions, hmk i q hall.1, ih (i + 1) hall.2,
      Option.map_some', List.enumFrom_cons, List.map_cons]

/-- Item construction of the true/false parse, for a valid item. -/
theorem tf_mk_eq (i : Nat) (q : Generators.RawQuestionData)
    (h : Generators.confItemOk q = true) :
    Generators.tf_mk i q = some ⟨i, q.question.getD ("Question " ++ toString i),
      [⟨"A", "True"⟩, ⟨"B", "False"⟩], q.answer.getD ["A"], none,
      some (q.confidence_score.getD (4/5))⟩ :=
  mkQuestion_eq _ _ _ _ _ (confItemOk_bounds h).1 (confItemOk_bounds h).2

/-- Item construction of the true/false-with-justification parse, for a valid
item. -/
theorem tfj_mk_eq (i : Nat) (q : Generators.RawQuestionData)
    (h : Generators.confItemOk q = true) :
    Generators.tfj_mk i q = some ⟨i, q.question.getD ("Question " ++ toString i),
      [⟨"A", "True"⟩, ⟨"B", "False"⟩], q.answer.getD ["A"],
      some (q.model_answer.getD "Justification not provided"),
      some (q.confidence_score.getD (4/5))⟩ :=
  mkQuestion_eq _ _ _ _ _ (confItemOk_bounds h).1 (confItemOk_bounds h).2

/-- Item construction of the multiple-choice parse, for a valid item. -/
theorem mc_mk_eq (i : Nat) (q : Generators.RawQuestionData)
    (h : Generators.confItemOk q = true) :
    Generators.mc_mk i q = some ⟨i, q.question.getD ("Question " ++ toString i),
      q.options.getD [], q.answer.getD ["A"], none,
      some (q.confidence_score.getD (4/5))⟩ :=
  mkQuestion_eq _ _ _ _ _ (confItemOk_bounds h).1 (confItemOk_bounds h).2

/-- Item construction of the multi-select parse, for a valid item. -/
theorem ms_mk_eq (i : Nat) (q : Generators.RawQuestionData)
    (h : Generators.confItemOk q = true) :
    Generators.ms_mk i q = some ⟨i, q.question.getD ("Question " ++ toString i),
      q.options.getD [], q.answer.getD ["A", "B"], none,
      some (q.confidence_score.getD (4/5))⟩ :=
  mkQuestion_eq _ _ _ _ _ (confItemOk_bounds h).1 (confItemOk_bounds h).2

/-- Padding loop of main.py grows the list to at least 3 given enough fuel. -/
theorem padLoop_length (qt tp : String) (nd nca : Option Nat) :
    ∀ (fuel : Nat) (qs : List MainApp.Question), 3 ≤ qs.length + fuel →
      3 ≤ (MainApp.padLoop qt tp nd nca fuel qs).length := by
  intro fuel
  induction fuel with
  | zero => intro qs h; simpa [MainApp.padLoop] using h
  | succ n ih =>
    intro qs h
    unfold MainApp.padLoop
    split
    · exact ih _ (by simp; omega)
    · omega

/-- A filterMap that loses no element maps the projection `g` of its outputs to
the per-input values, provided `g` of any output is `fst + 1` of its input. -/
theorem filterMap_full {α β : Type} (g : β → Nat) :
    ∀ (l : List (Nat × α)) (f : Nat × α → Option β),
      (∀ p b, f p = some b → g b = p.1 + 1) →
      (l.filterMap f).length = l.length →
      (l.filterMap f).map g = l.map (fun p => p.1 + 1) := by
  intro l
  induction l with
  | nil => intro f _ _; rfl
  | cons p rest ih =>
    intro f hg hlen
    cases hf : f p with
    | none =>
      exfalso
      rw [List.filterMap_cons_none hf] at hlen
      have := List.length_filterMap_le f rest
      simp at hlen
      omega
    | some b =>
      rw [List.filterMap_cons_some hf] at hlen ⊢
      simp only [List.length_cons, Nat.succ.injEq] at hlen
      simp only [List.map_cons, hg p b hf, ih f hg hlen]

/-- The SP single-question parser stamps the supplied positional number. -/
theorem sp_parse_single_question_number (block : List Char) (qt : String) (n : Nat)
    (q : SP.Question) (h : SP.parse_single_question block qt n = some q) :
    q.question_number = n := by
  simp only [SP.parse_single_question, Option.map_eq_some'] at h
  obtain ⟨a, -, hq⟩ := h
  rw [← hq]

end Lemmas

section MainPadLemma

/-- Truncating the padded list of main.py always yields exactly 3 questions. -/
theorem main_pad_take_length (qt tp : String) (nd nca : Option Nat)
    (qs : List MainApp.Question) :
    ((MainApp.padLoop qt tp nd nca 3 qs).take 3).length = 3 := by
  have h := padLoop_length qt tp nd nca 3 qs (by omega)
  rw [List.length_take]
  omega

end MainPadLemma

/-- Claim C1: for every request, the questions list of the returned result has
length exactly 3, whatever the model text contained — the service layer pads
short parses with fallback questions and truncates long ones to 3, and main.py's
parser does the same internally; structure_prompt.py's parser also returns 3
questions whenever it returns at all. -/
theorem C1_exactly_three_questions :
    (∀ (outcome : Generators.ModelReply) (request : Models.QuestionRequest),
      (Service.generate_questions outcome request).questions.length = 3) ∧
    (∀ (text : List Char) (qt tp : String) (nd nca : Option Nat),
      (MainApp.parse_generated_questions text qt tp nd nca).length = 3) ∧
    (∀ (text : List Char) (qt : String),
      match SP.parse_generated_questions text qt with
      | .ok qs => qs.length = 3
      | .error _ => True) := by
  refine ⟨?_, ?_, ?_⟩
  · intro outcome request
    exact pad_take_length _ _ (create_fallback_questions_length request)
  · intro text qt tp nd nca
    exact main_pad_take_length qt tp nd nca _
  · intro text qt
    simp only [SP.parse_generated_questions]
    split_ifs with hlt
    · trivial
    · simp only [List.length_take]
      omega

/-- Claim C2 counterexample: a MULTI_SELECT request whose inference call raised
(the timeout message of llm_client.py after all retries) nevertheless yields a
normal response whose questions are exactly the 3 generated fallback
placeholders with confidence 0.0 — a degraded result is returned instead of the
inference error propagating. -/
theorem C2_counterexample :
    (Service.generate_questions (.failure "LLM request timed out after all retries")
      Fixtures.reqMS).questions = Generators.create_fallback_questions Fixtures.reqMS ∧
    ((Service.generate_questions (.failure "LLM request timed out after all retries")
      Fixtures.reqMS).questions.map (fun q => q.confidence_score)) =
      List.replicate 3 (some 0) :=
  ⟨rfl, rfl⟩

/-- Claim C2 (amended): when the underlying inference call fails, the exception
is caught inside `QuestionGenerator.generate_questions` and the service returns
a normal result containing exactly the 3 fallback questions (confidence 0.0);
the inference error is not propagated to the caller. -/
theorem C2_inference_failure_degrades_to_fallback :
    ∀ (msg : String) (request : Models.QuestionRequest),
      (Service.generate_questions (.failure msg) request).questions =
        Generators.create_fallback_questions request ∧
      ((Service.generate_questions (.failure msg) request).questions.map
        (fun q => q.confidence_score)) = List.replicate 3 (some 0) := by
  intro msg request
  exact ⟨rfl, rfl⟩

/-- Claim C3 counterexample: with a persistently malformed response body, the
client makes 3 attempts (not 1) and sleeps 2^0 + 2^1 = 3 seconds before
surfacing the error — a malformed body is retried exactly like a timeout. -/
theorem C3_counterexample :
    (LlmClient.generate_response (fun _ => .malformedBody)).attempts = 3 ∧
    (LlmClient.generate_response (fun _ => .malformedBody)).totalSleep = 3 ∧
    (LlmClient.generate_response (fun _ => .malformedBody)).result =
      .error "LLM generation failed: Invalid response format from LLM" ∧
    (LlmClient.generate_response (fun _ => .malformedBody)).attempts ≠ 1 :=
  ⟨rfl, rfl, rfl, by decide⟩

/-- Claim C3 (amended): the generic `except Exception` arm of
`LLMClient.generate_response` retries a malformed response body with the same
exponential backoff as timeouts and transport errors: two malformed bodies
followed by a success produce 3 attempts, the successful content, and
2^0 + 2^1 = 3 seconds of cumulative sleep. -/
theorem C3_malformed_body_is_retried :
    ∀ (outcomes : Nat → LlmClient.AttemptOutcome) (content : String),
      outcomes 0 = .malformedBody → outcomes 1 = .malformedBody →
      outcomes 2 = .success content →
      LlmClient.generate_response outcomes = ⟨.ok content.trim, 3, 3⟩ := by
  intro f content h0 h1 h2
  simp [LlmClient.generate_response, LlmClient.retryFrom, LlmClient.max_retries,
    h0, h1, h2]

/-- Witness for C3: a concrete outcome stream with two malformed bodies then a
success. -/
theorem C3_witness :
    LlmClient.generate_response
      (fun n => if n < 2 then .malformedBody else .success "ok reply") =
      ⟨.ok ("ok reply".trim), 3, 3⟩ :=
  C3_malformed_body_is_retried _ "ok reply" rfl rfl rfl

/-- Claim C9: two consecutive timeouts followed by a success make exactly 3
attempts, return the successful (stripped) content, and sleep a cumulative
2^0 + 2^1 = 3 seconds, which is at least 3. -/
theorem C9_two_timeouts_then_success :
    ∀ (outcomes : Nat → LlmClient.AttemptOutcome) (content : String),
      outcomes 0 = .timeout → outcomes 1 = .timeout → outcomes 2 = .success content →
      (LlmClient.generate_response outcomes).attempts = 3 ∧
      (LlmClient.generate_response outcomes).result = .ok content.trim ∧
      3 ≤ (LlmClient.generate_response outcomes).totalSleep := by
  intro f content h0 h1 h2
  have ht : LlmClient.generate_response f = ⟨.ok content.trim, 3, 3⟩ := by
    simp [LlmClient.generate_response, LlmClient.retryFrom, LlmClient.max_retries,
      h0, h1, h2]
  rw [ht]
  exact ⟨rfl, rfl, le_refl 3⟩

/-- Witness for C9: a concrete outcome stream with two timeouts then success. -/
theorem C9_witness :
    (LlmClient.generate_response
      (fun n => if n < 2 then .timeout else .success "done")).attempts = 3 ∧
    (LlmClient.generate_response
      (fun n => if n < 2 then .timeout else .success "done")).result =
      .ok ("done".trim) ∧
    3 ≤ (LlmClient.generate_response
      (fun n => if n < 2 then .timeout else .success "done")).totalSleep :=
  C9_two_timeouts_then_success _ "done" rfl rfl rfl

/-- Claim C4: the parser of structure_prompt.py is NOT total — on garbage text
with no "Question" markers it raises `NameError` (the padding loop and its
`except` handler both call `create_fallback_question`, which is neither defined
in nor imported into structure_prompt.py) instead of returning placeholders.
The generator-class parser of question_generators.py, in contrast, is total:
on undecodable text it returns exactly 3 fallback questions with confidence
0.0. -/
theorem C4_sp_parser_raises_on_garbage :
    SP.parse_generated_questions
      ("The model refused to answer and produced no structured output.".toList)
      "MULTICHOICE" = .error (.nameError "create_fallback_question") ∧
    (∀ request : Models.QuestionRequest,
      Generators.mc_parse_response none request =
        Generators.create_fallback_questions request ∧
      (Generators.mc_parse_response none request).length = 3 ∧
      (Generators.mc_parse_response none request).map (fun q => q.confidence_score) =
        List.replicate 3 (some 0)) :=
  ⟨rfl, fun _ => ⟨rfl, rfl, rfl⟩⟩

/-- Claim C5 counterexample: when parsing of a TRUE_FALSE reply fails, the
questions produced for the boolean type are the generator fallbacks, whose
options are the generic pair A) "Option A" / B) "Option B" — not
A) "True" / B) "False". -/
theorem C5_counterexample :
    (Generators.tf_parse_response none Fixtures.reqTF).map (fun q => q.options) =
      List.replicate 3 [⟨"A", "Option A"⟩, ⟨"B", "Option B"⟩] ∧
    ([(⟨"A", "Option A"⟩ : Models.QuestionOption), ⟨"B", "Option B"⟩] ≠
      [⟨"A", "True"⟩, ⟨"B", "False"⟩]) :=
  ⟨rfl, by decide⟩

/-- Claim C5 (amended): every question successfully parsed from model output
for the boolean types has options forced to exactly A) "True" / B) "False",
whatever options the model supplied; only the fallback questions produced when
parsing or generation fails carry the generic options instead. -/
theorem C5_boolean_options_forced :
    ∀ (data : Generators.RawData) (request : Models.QuestionRequest),
      Generators.confOk data = true →
      (Generators.tf_parse_response (some data) request).map (fun q => q.options) =
        List.replicate ((data.questions.getD []).take 3).length
          [⟨"A", "True"⟩, ⟨"B", "False"⟩] ∧
      (Generators.tfj_parse_response (some data) request).map (fun q => q.options) =
        List.replicate ((data.questions.getD []).take 3).length
          [⟨"A", "True"⟩, ⟨"B", "False"⟩] := by
  intro data request h
  unfold Generators.confOk at h
  constructor
  · unfold Generators.tf_parse_response
    simp only [Generators.parse_response_with]
    rw [buildQuestions_eq tf_mk_eq _ 1 h, Option.getD_some]
    simp [List.map_map, Function.comp_def, List.map_const', List.enumFrom_length]
  · unfold Generators.tfj_parse_response
    simp only [Generators.parse_response_with]
    rw [buildQuestions_eq tfj_mk_eq _ 1 h, Option.getD_some]
    simp [List.map_map, Function.comp_def, List.map_const', List.enumFrom_length]

/-- Witness for C5: a decoded reply whose item carries non-boolean options
C) "Maybe" / D) "Never" still parses to forced True/False options. -/
theorem C5_witness :
    (Generators.tf_parse_response (some Fixtures.dataTF) Fixtures.reqTF).map
      (fun q => q.options) =
      List.replicate ((Fixtures.dataTF.questions.getD []).take 3).length
        [⟨"A", "True"⟩, ⟨"B", "False"⟩] :=
  (C5_boolean_options_forced Fixtures.dataTF Fixtures.reqTF (by decide)).1

/-- Claim C7 counterexample: a MULTI_SELECT request with
`correct_answer_count = 3` whose reply item carries a one-element answer list
parses to a question with exactly that one answer key — the parser never
checks the count. -/
theorem C7_counterexample :
    (Generators.ms_parse_response (some Fixtures.dataMS) Fixtures.reqMS).map
      (fun q => q.answer) = [["A"]] ∧
    Fixtures.reqMS.number_of_correct_answers = some 3 ∧
    (["A"] : List String).length = 1 ∧ (1 : Nat) ≠ 3 :=
  ⟨rfl, rfl, rfl, by decide⟩

/-- Claim C7 (amended): for every MULTI_SELECT request, a successfully parsed
question's answer keys are copied verbatim from the model output (defaulting to
["A", "B"] when the field is absent); no check relates their number to the
request's `correct_answer_count`. -/
theorem C7_answer_keys_copied_verbatim :
    ∀ (data : Generators.RawData) (request : Models.QuestionRequest),
      Generators.confOk data = true →
      (Generators.ms_parse_response (some data) request).map (fun q => q.answer) =
        ((data.questions.getD []).take 3).map (fun q => q.answer.getD ["A", "B"]) := by
  intro data request h
  unfold Generators.confOk at h
  unfold Generators.ms_parse_response
  simp only [Generators.parse_response_with]
  rw [buildQuestions_eq ms_mk_eq _ 1 h, Option.getD_some, List.map_map]
  show (List.enumFrom 1 ((data.questions.getD []).take 3)).map
      ((fun q : Generators.RawQuestionData => q.answer.getD ["A", "B"]) ∘ Prod.snd) = _
  rw [← List.map_map, List.enumFrom_map_snd]

/-- Witness for C7: the concrete one-answer reply above satisfies the verbatim
copy property. -/
theorem C7_witness :
    (Generators.ms_parse_response (some Fixtures.dataMS) Fixtures.reqMS).map
      (fun q => q.answer) =
      ((Fixtures.dataMS.questions.getD []).take 3).map
        (fun q => q.answer.getD ["A", "B"]) :=
  C7_answer_keys_copied_verbatim Fixtures.dataMS Fixtures.reqMS (by decide)

/-- Claim C6 counterexample: main.py's Multi-Select fallback question has
answer keys ["A", "B"] (the first `correct_answer_count` letters), not ["A"]. -/
theorem C6_counterexample :
    (MainApp.create_fallback_question 1 "Multi-Select" "tp" (some 3) (some 2)).correct_answers =
      some ["A", "B"] ∧
    (MainApp.create_fallback_question 1 "Multi-Select" "tp" (some 3) (some 2)).correct_answers ≠
      some ["A"] :=
  ⟨rfl, by decide⟩

/-- Claim C6 (amended): main.py's `create_fallback_question` produces
question_text "Question n - parsing error occurred" with letter-labeled generic
options sized distractors+1 for Multiple Choice, distractors+correct-answers
for Multi-Select, and the fixed True/False pair for boolean types; the answer
is "A" for single-answer types but the first correct_answer_count letters for
Multi-Select.  The generator-class fallback of question_generators.py differs:
its question text is "[Generation Error] Question n for: ...", it always has
exactly the two generic options A/B regardless of the counts, answer ["A"],
and confidence 0.0. -/
theorem C6_fallback_question_shape :
    ∀ (n : Nat) (tp : String) (nd nca : Option Nat),
      ((MainApp.create_fallback_question n "Multiple Choice" tp nd nca).question_text =
        "Question " ++ toString n ++ " - parsing error occurred" ∧
       (MainApp.create_fallback_question n "Multiple Choice" tp nd nca).options.length =
        MainApp.orD nd 3 + 1 ∧
       (MainApp.create_fallback_question n "Multiple Choice" tp nd nca).correct_answer =
        some "A") ∧
      ((MainApp.create_fallback_question n "Multi-Select" tp nd nca).options.length =
        MainApp.orD nd 2 + MainApp.orD nca 2 ∧
       (MainApp.create_fallback_question n "Multi-Select" tp nd nca).correct_answers =
        some ((List.range (MainApp.orD nca 2)).map MainApp.letter)) ∧
      ((MainApp.create_fallback_question n "True or False" tp nd nca).options =
        ["True", "False"] ∧
       (MainApp.create_fallback_question n "True or False" tp nd nca).correct_answer =
        some "A" ∧
       (MainApp.create_fallback_question n "True or False" tp nd nca).question_text =
        "Question " ++ toString n ++ " - parsing error occurred") ∧
      (∀ request : Models.QuestionRequest,
        (Generators.create_fallback_questions request).map
          (fun q => (q.options, q.answer, q.confidence_score)) =
          [([⟨"A", "Option A"⟩, ⟨"B", "Option B"⟩], ["A"], some 0),
           ([⟨"A", "Option A"⟩, ⟨"B", "Option B"⟩], ["A"], some 0),
           ([⟨"A", "Option A"⟩, ⟨"B", "Option B"⟩], ["A"], some 0)]) := by
  intro n tp nd nca
  refine ⟨⟨?_, ?_, ?_⟩, ⟨?_, ?_⟩, ⟨?_, ?_, ?_⟩, fun request => rfl⟩
  all_goals simp [MainApp.create_fallback_question]

/-- Claim C10: question numbers are assigned positionally.  In the JSON parse
of question_generators.py the i-th kept item gets number i (1-based), whatever
`question_number` the model supplied; in structure_prompt.py every successfully
returned parse carries numbers exactly [1, 2, 3]. -/
theorem C10_positional_question_numbers :
    (∀ (data : Generators.RawData) (request : Models.QuestionRequest),
      Generators.confOk data = true →
      (Generators.mc_parse_response (some data) request).map (fun q => q.question_number) =
        List.range' 1 ((data.questions.getD []).take 3).length) ∧
    (∀ (text : List Char) (qt : String),
      match SP.parse_generated_questions text qt with
      | .ok qs => qs.map (fun q => q.question_number) = [1, 2, 3]
      | .error _ => True) := by
  constructor
  · intro data request h
    unfold Generators.confOk at h
    unfold Generators.mc_parse_response
    simp only [Generators.parse_response_with]
    rw [buildQuestions_eq mc_mk_eq _ 1 h, Option.getD_some, List.map_map]
    show (List.enumFrom 1 ((data.questions.getD []).take 3)).map Prod.fst = _
    rw [List.enumFrom_map_fst]
  · intro text qt
    simp only [SP.parse_generated_questions]
    split_ifs with hlt
    · trivial
    · have hFle := List.length_filterMap_le
        (fun p : Nat × List Char => SP.parse_single_question p.2 qt (p.1 + 1))
        ((SP.question_blocks text).take 3).enum
      have hE : ((SP.question_blocks text).take 3).enum.length =
          ((SP.question_blocks text).take 3).length := List.enum_length
      have hB3 : ((SP.question_blocks text).take 3).length ≤ 3 := by
        rw [List.length_take]; exact Nat.min_le_left _ _
      have hEF : (((SP.question_blocks text).take 3).enum.filterMap
          (fun p => SP.parse_single_question p.2 qt (p.1 + 1))).length =
          ((SP.question_blocks text).take 3).enum.length := by omega
      have hmap := filterMap_full (fun q => q.question_number)
        ((SP.question_blocks text).take 3).enum
        (fun p => SP.parse_single_question p.2 qt (p.1 + 1))
        (fun p b hb => sp_parse_single_question_number p.2 qt (p.1 + 1) b hb) hEF
      have hBl : ((SP.question_blocks text).take 3).length = 3 := by omega
      obtain ⟨a, b, c, habc⟩ := List.length_eq_three.mp hBl
      rw [List.take_of_length_le (by omega)]
      show (((SP.question_blocks text).take 3).enum.filterMap
          (fun p => SP.parse_single_question p.2 qt (p.1 + 1))).map
          (fun q => q.question_number) = [1, 2, 3]
      rw [hmap, habc]
      rfl

/-- Witness for C10: a decoded reply whose two items carry bogus model-supplied
numbers 7 and 4 parses to questions numbered 1 and 2, and a labeled-line text
whose headers carry bogus numbers 7, 9, 1 parses to questions numbered 1, 2, 3. -/
theorem C10_witness :
    ((Generators.mc_parse_response (some Fixtures.dataMC) Fixtures.reqMC).map
      (fun q => q.question_number) = [1, 2]) ∧
    (SP.parse_generated_questions Fixtures.spText "MULTICHOICE").map
      (fun qs => qs.map (fun q => q.question_number)) = .ok [1, 2, 3] := by
  constructor
  · have h := C10_positional_question_numbers.1 Fixtures.dataMC Fixtures.reqMC (by decide)
    rw [h]
    decide
  · rfl

/-- Claim C8: validation rejects a MULTI_SELECT request whose
`number_of_correct_answers` is absent with the missing-correct-count error, and
accepts a MULTICHOICE (single choice) request with `number_of_distractors = 3`,
for which `MultipleChoiceGenerator.generate_prompt` computes `total_options = 4`. -/
theorem C8_validator_multi_select_and_single_choice :
    ∀ (a e : String) (c : Option String) (lang : Models.Language)
      (bloom : Models.BloomLevel),
      Models.validate_correct_answers none .MULTI_SELECT =
        .error "number_of_correct_answers required for MULTI_SELECT" ∧
      Models.validateQuestionRequest a e c .MULTI_SELECT (some 3) none lang bloom =
        .error "number_of_correct_answers required for MULTI_SELECT" ∧
      ∃ r, Models.validateQuestionRequest a e c .MULTICHOICE (some 3) none lang bloom =
        .ok r ∧ Generators.mc_total_options r = some 4 := by
  intro a e c lang bloom
  refine ⟨rfl, rfl, ?_⟩
  exact ⟨⟨a, e, c, .MULTICHOICE, some 3, none, lang, bloom⟩, rfl, rfl⟩
